import Mathlib

/-!
Shallow embedding of the puzzle-zone action layer: three stored tables
(PuzzleTemplates, PuzzleSessions, PuzzleAttempts) and seven request handlers
(createPuzzleTemplate, updatePuzzleTemplate, listPuzzleTemplates,
startPuzzleSession, completePuzzleSession, recordPuzzleAttempt,
listPuzzleSessions). Storage is modelled as lists of rows threaded through
each handler; nondeterministic inputs of the runtime (the generated UUID and
the clock) are explicit parameters. Each handler also returns the list of
storage operations it performed, so that "no storage access" is expressible.
-/

namespace PuzzleZone

/-- The authenticated user taken from the request context locals. -/
structure User where
  id : String
deriving DecidableEq

/-- A row of the PuzzleTemplates table (db/config schema): `userId` is
nullable (null marks a global puzzle), the classification and payload text
columns are nullable, `isSystem` defaults to false, timestamps are dates
(modelled as Nat). -/
structure PuzzleTemplate where
  id : String
  userId : Option String
  name : String
  puzzleType : Option String
  difficulty : Option String
  description : Option String
  dataJson : Option String
  solutionJson : Option String
  isSystem : Bool
  createdAt : Nat
  updatedAt : Nat
deriving DecidableEq

/-- A row of the PuzzleSessions table: `completedAt`, `status`, `score` and
`timeTakenSeconds` are nullable. Numbers are modelled as Int. -/
structure PuzzleSession where
  id : String
  puzzleTemplateId : String
  userId : String
  startedAt : Nat
  completedAt : Option Nat
  status : Option String
  score : Option Int
  timeTakenSeconds : Option Int
deriving DecidableEq

/-- A row of the PuzzleAttempts table. -/
structure PuzzleAttempt where
  id : String
  sessionId : String
  attemptIndex : Int
  attemptDataJson : Option String
  isCorrect : Bool
  createdAt : Nat
deriving DecidableEq

/-- The stored state: the three tables, each a list of rows in insertion
order. -/
structure DB where
  templates : List PuzzleTemplate
  sessions : List PuzzleSession
  attempts : List PuzzleAttempt
deriving DecidableEq

/-- The error codes an action can raise via ActionError. -/
inductive ErrCode where
  | UNAUTHORIZED
  | NOT_FOUND
  | FORBIDDEN
deriving DecidableEq

/-- One storage round trip: a select, or an insert/update. -/
inductive StorageOp where
  | read
  | write
deriving DecidableEq

/-- What a handler produces: the success payload or the thrown error, the
stored state after the call, and the storage operations performed in order. -/
structure ActionResult (α : Type) where
  res : Except ErrCode α
  db : DB
  trace : List StorageOp

/-- requireUser: resolves the acting user from the request context locals;
throws UNAUTHORIZED when absent. -/
def requireUser : Option User → Except ErrCode User
  | none => .error .UNAUTHORIZED
  | some u => .ok u

/-- JavaScript truthiness of an optional string input field: undefined and
the empty string are falsy, every other string is truthy. -/
def truthy : Option String → Bool
  | none => false
  | some s => !s.isEmpty

/-- Input of createPuzzleTemplate after zod validation (`name` nonempty,
the rest optional). -/
structure CreateTemplateInput where
  name : String
  puzzleType : Option String
  difficulty : Option String
  description : Option String
  dataJson : Option String
  solutionJson : Option String
deriving DecidableEq

/-- createPuzzleTemplate: requires a user, generates an id (here the
`freshId` parameter, for crypto.randomUUID), inserts one template row owned
by the caller with `isSystem := false` and both timestamps `now`, and
returns the new id. -/
def createPuzzleTemplate (ctx : Option User) (input : CreateTemplateInput)
    (freshId : String) (now : Nat) (db : DB) : ActionResult String :=
  match requireUser ctx with
  | .error e => ⟨.error e, db, []⟩
  | .ok user =>
    let row : PuzzleTemplate :=
      { id := freshId
        userId := some user.id
        name := input.name
        puzzleType := input.puzzleType
        difficulty := input.difficulty
        description := input.description
        dataJson := input.dataJson
        solutionJson := input.solutionJson
        isSystem := false
        createdAt := now
        updatedAt := now }
    ⟨.ok freshId, { db with templates := db.templates ++ [row] }, [.write]⟩

/-- Input of updatePuzzleTemplate after zod validation (`id` nonempty; the
optional text fields, when present, may be empty only for `description`,
`dataJson`, `solutionJson` since the others carry min(1)). -/
structure UpdateTemplateInput where
  id : String
  name : Option String
  puzzleType : Option String
  difficulty : Option String
  description : Option String
  dataJson : Option String
  solutionJson : Option String
deriving DecidableEq

/-- The update object built by updatePuzzleTemplate: each optional field is
spread in only when its input value is truthy, and `updatedAt` is always set
to now. -/
def applyTemplateUpdates (input : UpdateTemplateInput) (now : Nat)
    (t : PuzzleTemplate) : PuzzleTemplate :=
  { t with
    name := if truthy input.name then input.name.getD t.name else t.name
    puzzleType := if truthy input.puzzleType then input.puzzleType else t.puzzleType
    difficulty := if truthy input.difficulty then input.difficulty else t.difficulty
    description := if truthy input.description then input.description else t.description
    dataJson := if truthy input.dataJson then input.dataJson else t.dataJson
    solutionJson := if truthy input.solutionJson then input.solutionJson else t.solutionJson
    updatedAt := now }

/-- updatePuzzleTemplate: requires a user, selects the template by id
(destructuring the first row), throws NOT_FOUND when absent, throws
FORBIDDEN when `existing.userId !== user.id || existing.isSystem`, otherwise
writes the truthy-filtered updates to the rows matching the id and returns
the id. -/
def updatePuzzleTemplate (ctx : Option User) (input : UpdateTemplateInput)
    (now : Nat) (db : DB) : ActionResult String :=
  match requireUser ctx with
  | .error e => ⟨.error e, db, []⟩
  | .ok user =>
    match db.templates.find? (fun t => t.id == input.id) with
    | none => ⟨.error .NOT_FOUND, db, [.read]⟩
    | some existing =>
      if existing.userId != some user.id || existing.isSystem then
        ⟨.error .FORBIDDEN, db, [.read]⟩
      else
        ⟨.ok input.id,
         { db with templates :=
             db.templates.map (fun t =>
               if t.id == input.id then applyTemplateUpdates input now t else t) },
         [.read, .write]⟩

/-- The OR-reduced where clause of listPuzzleTemplates: the ownership
condition `eq(userId, user.id)`, with `eq(isSystem, true)` pushed and OR-ed
in when includeSystem holds. SQL equality on the nullable userId column is
false at NULL, modelled by comparison with `some user.id`. -/
def templateVisible (user : User) (includeSystem : Bool)
    (t : PuzzleTemplate) : Bool :=
  t.userId == some user.id || (includeSystem && t.isSystem)

/-- listPuzzleTemplates: requires a user, selects the templates matching the
OR-combined visibility conditions (includeSystem defaults to true), and
returns them together with the count of the returned rows. -/
def listPuzzleTemplates (ctx : Option User) (includeSystem : Option Bool)
    (db : DB) : ActionResult (List PuzzleTemplate × Nat) :=
  match requireUser ctx with
  | .error e => ⟨.error e, db, []⟩
  | .ok user =>
    let items := db.templates.filter
      (templateVisible user (includeSystem.getD true))
    ⟨.ok (items, items.length), db, [.read]⟩

/-- startPuzzleSession: requires a user, selects the template whose id
matches AND which is owned by the caller OR system-owned, throws NOT_FOUND
when no such row exists, otherwise inserts one session row
(status "in-progress", startedAt now, the nullable columns absent) and
returns the new session id together with the template id. -/
def startPuzzleSession (ctx : Option User) (puzzleTemplateId : String)
    (freshId : String) (now : Nat) (db : DB) :
    ActionResult (String × String) :=
  match requireUser ctx with
  | .error e => ⟨.error e, db, []⟩
  | .ok user =>
    match db.templates.find?
        (fun t => t.id == puzzleTemplateId &&
          (t.userId == some user.id || t.isSystem)) with
    | none => ⟨.error .NOT_FOUND, db, [.read]⟩
    | some template =>
      let row : PuzzleSession :=
        { id := freshId
          puzzleTemplateId := template.id
          userId := user.id
          startedAt := now
          completedAt := none
          status := some "in-progress"
          score := none
          timeTakenSeconds := none }
      ⟨.ok (freshId, template.id),
       { db with sessions := db.sessions ++ [row] }, [.read, .write]⟩

/-- Input of completePuzzleSession after zod validation: `status` is the
enum value when supplied (zod defaults it to "completed" when absent,
modelled by Option plus getD at use), `score` any number,
`timeTakenSeconds` a positive integer. -/
structure CompleteSessionInput where
  sessionId : String
  status : Option String
  score : Option Int
  timeTakenSeconds : Option Int
deriving DecidableEq

/-- When a set() value is present it overwrites the column; an undefined
entry is dropped from the update set by the storage layer, leaving the
stored value unchanged. -/
def setOrKeep {α : Type} (v old : Option α) : Option α :=
  match v with
  | some x => some x
  | none => old

/-- completePuzzleSession: requires a user, selects the session scoped to
id AND caller ownership, throws NOT_FOUND when absent, otherwise updates the
rows matching the session id: status to the requested value, score and
timeTakenSeconds from the input when supplied (absent entries are dropped
from the update set), and completedAt to now unconditionally. Returns the
session id. -/
def completePuzzleSession (ctx : Option User) (input : CompleteSessionInput)
    (now : Nat) (db : DB) : ActionResult String :=
  match requireUser ctx with
  | .error e => ⟨.error e, db, []⟩
  | .ok user =>
    match db.sessions.find?
        (fun s => s.id == input.sessionId && s.userId == user.id) with
    | none => ⟨.error .NOT_FOUND, db, [.read]⟩
    | some _ =>
      ⟨.ok input.sessionId,
       { db with sessions := db.sessions.map (fun s =>
           if s.id == input.sessionId then
             { s with
               status := some (input.status.getD "completed")
               score := setOrKeep input.score s.score
               timeTakenSeconds := setOrKeep input.timeTakenSeconds s.timeTakenSeconds
               completedAt := some now }
           else s) },
       [.read, .write]⟩

/-- Input of recordPuzzleAttempt after zod validation: `attemptIndex` a
positive integer, `isCorrect` defaulted to false by zod when absent
(modelled by Option plus getD at use). -/
structure RecordAttemptInput where
  sessionId : String
  attemptIndex : Int
  attemptDataJson : Option String
  isCorrect : Option Bool
deriving DecidableEq

/-- recordPuzzleAttempt: requires a user, selects the session scoped to id
AND caller ownership, throws NOT_FOUND when absent, otherwise inserts one
attempt row with the given fields and returns its generated id. -/
def recordPuzzleAttempt (ctx : Option User) (input : RecordAttemptInput)
    (freshId : String) (now : Nat) (db : DB) : ActionResult String :=
  match requireUser ctx with
  | .error e => ⟨.error e, db, []⟩
  | .ok user =>
    match db.sessions.find?
        (fun s => s.id == input.sessionId && s.userId == user.id) with
    | none => ⟨.error .NOT_FOUND, db, [.read]⟩
    | some _ =>
      let row : PuzzleAttempt :=
        { id := freshId
          sessionId := input.sessionId
          attemptIndex := input.attemptIndex
          attemptDataJson := input.attemptDataJson
          isCorrect := input.isCorrect.getD false
          createdAt := now }
      ⟨.ok freshId, { db with attempts := db.attempts ++ [row] }, [.read, .write]⟩

/-- Input of listPuzzleSessions after zod validation: both filters optional
plain strings, `page` positive defaulting to 1, `pageSize` positive at most
100 defaulting to 20 (defaults modelled by Option plus getD at use). -/
structure ListSessionsInput where
  puzzleTemplateId : Option String
  status : Option String
  page : Option Nat
  pageSize : Option Nat
deriving DecidableEq

/-- The AND-reduced where clause of listPuzzleSessions: ownership always,
then the puzzleTemplateId equality pushed when that input is truthy, then
the status equality pushed when that input is truthy. SQL equality on the
nullable status column is false at NULL. -/
def sessionMatches (user : User) (tid st : Option String)
    (s : PuzzleSession) : Bool :=
  s.userId == user.id
  && (if truthy tid then s.puzzleTemplateId == tid.getD "" else true)
  && (if truthy st then s.status == some (st.getD "") else true)

/-- listPuzzleSessions: requires a user, selects the sessions matching the
AND-combined filters, applies offset `(page - 1) * pageSize` then limit
`pageSize`, and returns the page together with the count of the returned
rows and the page number. -/
def listPuzzleSessions (ctx : Option User) (input : ListSessionsInput)
    (db : DB) : ActionResult (List PuzzleSession × Nat × Nat) :=
  match requireUser ctx with
  | .error e => ⟨.error e, db, []⟩
  | .ok user =>
    let page := input.page.getD 1
    let pageSize := input.pageSize.getD 20
    let matching := db.sessions.filter
      (sessionMatches user input.puzzleTemplateId input.status)
    let items := (matching.drop ((page - 1) * pageSize)).take pageSize
    ⟨.ok (items, items.length, page), db, [.read]⟩

/-- A user-owned template fixture for concrete evaluations. -/
def sampleTemplate : PuzzleTemplate :=
  { id := "t1"
    userId := some "u1"
    name := "Test"
    puzzleType := some "sudoku"
    difficulty := none
    description := none
    dataJson := none
    solutionJson := none
    isSystem := false
    createdAt := 0
    updatedAt := 0 }

/-- The seeded system template fixture (db/seed): fixed id, null userId,
isSystem true. -/
def systemTemplate : PuzzleTemplate :=
  { id := "system-puzzle-sample"
    userId := none
    name := "Starter Puzzle"
    puzzleType := some "logic-grid"
    difficulty := some "easy"
    description := some "A sample puzzle included with the starter app."
    dataJson := some "{}"
    solutionJson := some "{}"
    isSystem := true
    createdAt := 0
    updatedAt := 0 }

/-- A session fixture owned by user u1. -/
def sampleSession : PuzzleSession :=
  { id := "s1"
    puzzleTemplateId := "t1"
    userId := "u1"
    startedAt := 0
    completedAt := none
    status := some "in-progress"
    score := none
    timeTakenSeconds := none }

/-- A small stored state for concrete evaluations. -/
def sampleDB : DB :=
  { templates := [sampleTemplate, systemTemplate]
    sessions := [sampleSession]
    attempts := [] }

/-- C1: for every one of the seven actions and every input, if the request
context carries no authenticated user, the action raises UNAUTHORIZED, the
stored state is unchanged, and no storage read or write is performed (empty
trace). -/
theorem unauthenticated_fails_without_storage_access
    (i1 : CreateTemplateInput) (i2 : UpdateTemplateInput)
    (inc : Option Bool) (tid : String) (i4 : CompleteSessionInput)
    (i5 : RecordAttemptInput) (i6 : ListSessionsInput)
    (fid1 fid2 fid3 : String) (now : Nat) (db : DB) :
    createPuzzleTemplate none i1 fid1 now db = ⟨.error .UNAUTHORIZED, db, []⟩ ∧
    updatePuzzleTemplate none i2 now db = ⟨.error .UNAUTHORIZED, db, []⟩ ∧
    listPuzzleTemplates none inc db = ⟨.error .UNAUTHORIZED, db, []⟩ ∧
    startPuzzleSession none tid fid2 now db = ⟨.error .UNAUTHORIZED, db, []⟩ ∧
    completePuzzleSession none i4 now db = ⟨.error .UNAUTHORIZED, db, []⟩ ∧
    recordPuzzleAttempt none i5 fid3 now db = ⟨.error .UNAUTHORIZED, db, []⟩ ∧
    listPuzzleSessions none i6 db = ⟨.error .UNAUTHORIZED, db, []⟩ :=
  ⟨rfl, rfl, rfl, rfl, rfl, rfl, rfl⟩

/-- C2: for every authenticated caller and stored state, updatePuzzleTemplate
raises NOT_FOUND exactly when no template with the given id exists, raises
FORBIDDEN exactly when the template exists but the caller is not its owner or
it is a system template (including when the caller equals the owner field),
and in every error case the stored state is unchanged. -/
theorem updatePuzzleTemplate_error_cases
    (user : User) (input : UpdateTemplateInput) (now : Nat) (db : DB) :
    ((updatePuzzleTemplate (some user) input now db).res = .error .NOT_FOUND ↔
      ∀ t ∈ db.templates, t.id ≠ input.id) ∧
    ((updatePuzzleTemplate (some user) input now db).res = .error .FORBIDDEN ↔
      ∃ t, db.templates.find? (fun t => t.id == input.id) = some t ∧
        (t.userId ≠ some user.id ∨ t.isSystem = true)) ∧
    (∀ e, (updatePuzzleTemplate (some user) input now db).res = .error e →
      (updatePuzzleTemplate (some user) input now db).db = db) := by
  simp only [updatePuzzleTemplate, requireUser]
  cases hfind : db.templates.find? (fun t => t.id == input.id) with
  | none =>
    refine ⟨?_, ?_, fun e _ => rfl⟩
    · refine iff_of_true rfl fun t ht => ?_
      simpa using (List.find?_eq_none.mp hfind) t ht
    · refine iff_of_false (by simp) ?_
      rintro ⟨t, h, -⟩
      cases h
  | some t =>
    have hmem : t ∈ db.templates := List.mem_of_find?_eq_some hfind
    have hpred : t.id = input.id := by
      simpa using List.find?_some hfind
    dsimp only
    by_cases hc : (t.userId != some user.id || t.isSystem) = true
    · rw [if_pos hc]
      refine ⟨?_, ?_, fun e _ => rfl⟩
      · exact iff_of_false (by simp) fun hall => hall t hmem hpred
      · refine iff_of_true rfl ⟨t, rfl, ?_⟩
        rcases Bool.or_eq_true _ _ |>.mp hc with h | h
        · exact Or.inl (by simpa using h)
        · exact Or.inr h
    · rw [if_neg hc]
      refine ⟨?_, ?_, fun e h => absurd h (by simp)⟩
      · exact iff_of_false (by simp) fun hall => hall t hmem hpred
      · refine iff_of_false (by simp) ?_
        rintro ⟨u, hu, hbad⟩
        cases hu
        apply hc
        rcases hbad with h | h
        · exact Bool.or_eq_true _ _ |>.mpr (Or.inl (by simpa using h))
        · exact Bool.or_eq_true _ _ |>.mpr (Or.inr h)

/-- Witness for C2: the caller matching the update input against the seeded
system template gets FORBIDDEN. -/
theorem updatePuzzleTemplate_error_cases_witness :
    (updatePuzzleTemplate (some ⟨"u1"⟩)
      ⟨"system-puzzle-sample", none, none, none, none, none, none⟩ 5 sampleDB).res =
      Except.error ErrCode.FORBIDDEN :=
  (updatePuzzleTemplate_error_cases ⟨"u1"⟩
    ⟨"system-puzzle-sample", none, none, none, none, none, none⟩ 5 sampleDB).2.1.mpr
    ⟨systemTemplate, by decide, Or.inr rfl⟩

/-- C3: for every authenticated caller, startPuzzleSession raises NOT_FOUND
exactly when no template has the given id and is either owned by the caller
or system-owned (never FORBIDDEN, and the state is then unchanged); on
success it appends exactly one session owned by the caller with the
template's id, status in-progress, startedAt now, absent completedAt, and
returns the fresh id with the template id. -/
theorem startPuzzleSession_spec
    (user : User) (tid fid : String) (now : Nat) (db : DB) :
    ((startPuzzleSession (some user) tid fid now db).res = .error .NOT_FOUND ↔
      ∀ t ∈ db.templates,
        ¬(t.id = tid ∧ (t.userId = some user.id ∨ t.isSystem = true))) ∧
    ((startPuzzleSession (some user) tid fid now db).res = .error .NOT_FOUND →
      (startPuzzleSession (some user) tid fid now db).db = db) ∧
    ((startPuzzleSession (some user) tid fid now db).res ≠ .error .FORBIDDEN) ∧
    ((∃ t ∈ db.templates,
        t.id = tid ∧ (t.userId = some user.id ∨ t.isSystem = true)) →
      (startPuzzleSession (some user) tid fid now db).res = .ok (fid, tid) ∧
      (startPuzzleSession (some user) tid fid now db).db = { db with
        sessions := db.sessions ++
          [{ id := fid
             puzzleTemplateId := tid
             userId := user.id
             startedAt := now
             completedAt := none
             status := some "in-progress"
             score := none
             timeTakenSeconds := none }] }) := by
  simp only [startPuzzleSession, requireUser]
  cases hfind : db.templates.find?
      (fun t => t.id == tid && (t.userId == some user.id || t.isSystem)) with
  | none =>
    have hnone := List.find?_eq_none.mp hfind
    refine ⟨iff_of_true rfl fun t ht => ?_, fun _ => rfl, by simp, ?_⟩
    · simpa using hnone t ht
    · rintro ⟨t, ht, hid, hrest⟩
      refine absurd ?_ (hnone t ht)
      simp only [Bool.and_eq_true, beq_iff_eq, Bool.or_eq_true]
      exact ⟨hid, hrest⟩
  | some template =>
    have hmem := List.mem_of_find?_eq_some hfind
    have hp := List.find?_some hfind
    simp only [Bool.and_eq_true, beq_iff_eq, Bool.or_eq_true] at hp
    obtain ⟨hid, hrest⟩ := hp
    dsimp only
    refine ⟨iff_of_false (by simp) fun hall => hall template hmem ⟨hid, hrest⟩,
      fun h => absurd h (by simp), by simp, fun _ => ⟨by rw [hid], by rw [hid]⟩⟩

/-- Witness for C3: any authenticated user can start a session on the seeded
system template. -/
theorem startPuzzleSession_spec_witness :
    (startPuzzleSession (some ⟨"u2"⟩) "system-puzzle-sample" "s9" 7 sampleDB).res =
      .ok ("s9", "system-puzzle-sample") :=
  ((startPuzzleSession_spec ⟨"u2"⟩ "system-puzzle-sample" "s9" 7 sampleDB).2.2.2
    ⟨systemTemplate, by decide, rfl, Or.inr rfl⟩).1

/-- C4: for every authenticated caller, completePuzzleSession raises
NOT_FOUND exactly when no session with the given id owned by the caller
exists (and the state is then unchanged); on success — with no precondition
on the current status — the rows with the session id get status set to the
requested value (defaulted to completed), score and timeTakenSeconds
overwritten when supplied and kept otherwise, and completedAt set to now
unconditionally, also for abandoned. -/
theorem completePuzzleSession_spec
    (user : User) (input : CompleteSessionInput) (now : Nat) (db : DB) :
    ((completePuzzleSession (some user) input now db).res = .error .NOT_FOUND ↔
      ∀ s ∈ db.sessions, ¬(s.id = input.sessionId ∧ s.userId = user.id)) ∧
    ((completePuzzleSession (some user) input now db).res = .error .NOT_FOUND →
      (completePuzzleSession (some user) input now db).db = db) ∧
    ((∃ s ∈ db.sessions, s.id = input.sessionId ∧ s.userId = user.id) →
      (completePuzzleSession (some user) input now db).res = .ok input.sessionId ∧
      (completePuzzleSession (some user) input now db).db = { db with
        sessions := db.sessions.map (fun s =>
          if s.id = input.sessionId then
            { s with
              status := some (input.status.getD "completed")
              score := setOrKeep input.score s.score
              timeTakenSeconds := setOrKeep input.timeTakenSeconds s.timeTakenSeconds
              completedAt := some now }
          else s) }) := by
  simp only [completePuzzleSession, requireUser]
  cases hfind : db.sessions.find?
      (fun s => s.id == input.sessionId && s.userId == user.id) with
  | none =>
    have hnone := List.find?_eq_none.mp hfind
    refine ⟨iff_of_true rfl fun s hs => ?_, fun _ => rfl, ?_⟩
    · simpa using hnone s hs
    · rintro ⟨s, hs, hid, huid⟩
      refine absurd ?_ (hnone s hs)
      simp only [Bool.and_eq_true, beq_iff_eq]
      exact ⟨hid, huid⟩
  | some s0 =>
    have hmem := List.mem_of_find?_eq_some hfind
    have hp := List.find?_some hfind
    simp only [Bool.and_eq_true, beq_iff_eq] at hp
    dsimp only
    refine ⟨iff_of_false (by simp) fun hall => hall s0 hmem hp,
      fun h => absurd h (by simp), fun _ => ⟨rfl, ?_⟩⟩
    simp only [beq_iff_eq]

/-- Witness for C4: the owner re-files session s1 as abandoned and the call
succeeds. -/
theorem completePuzzleSession_spec_witness :
    (completePuzzleSession (some ⟨"u1"⟩)
      ⟨"s1", some "abandoned", none, some 42⟩ 9 sampleDB).res = .ok "s1" :=
  ((completePuzzleSession_spec ⟨"u1"⟩
    ⟨"s1", some "abandoned", none, some 42⟩ 9 sampleDB).2.2
    ⟨sampleSession, by decide, rfl, rfl⟩).1

/-- C5: for every authenticated caller, recordPuzzleAttempt raises NOT_FOUND
exactly when no session with the given id owned by the caller exists (the
state then unchanged), and otherwise — with no condition on the session's
status and none on the existing attempts — appends exactly one attempt row
with the given sessionId, attemptIndex, attemptDataJson and isCorrect
(defaulted to false). -/
theorem recordPuzzleAttempt_spec
    (user : User) (input : RecordAttemptInput) (fid : String) (now : Nat)
    (db : DB) :
    ((recordPuzzleAttempt (some user) input fid now db).res = .error .NOT_FOUND ↔
      ∀ s ∈ db.sessions, ¬(s.id = input.sessionId ∧ s.userId = user.id)) ∧
    ((recordPuzzleAttempt (some user) input fid now db).res = .error .NOT_FOUND →
      (recordPuzzleAttempt (some user) input fid now db).db = db) ∧
    ((∃ s ∈ db.sessions, s.id = input.sessionId ∧ s.userId = user.id) →
      (recordPuzzleAttempt (some user) input fid now db).res = .ok fid ∧
      (recordPuzzleAttempt (some user) input fid now db).db = { db with
        attempts := db.attempts ++
          [{ id := fid
             sessionId := input.sessionId
             attemptIndex := input.attemptIndex
             attemptDataJson := input.attemptDataJson
             isCorrect := input.isCorrect.getD false
             createdAt := now }] }) := by
  simp only [recordPuzzleAttempt, requireUser]
  cases hfind : db.sessions.find?
      (fun s => s.id == input.sessionId && s.userId == user.id) with
  | none =>
    have hnone := List.find?_eq_none.mp hfind
    refine ⟨iff_of_true rfl fun s hs => ?_, fun _ => rfl, ?_⟩
    · simpa using hnone s hs
    · rintro ⟨s, hs, hid, huid⟩
      refine absurd ?_ (hnone s hs)
      simp only [Bool.and_eq_true, beq_iff_eq]
      exact ⟨hid, huid⟩
  | some s0 =>
    have hmem := List.mem_of_find?_eq_some hfind
    have hp := List.find?_some hfind
    simp only [Bool.and_eq_true, beq_iff_eq] at hp
    dsimp only
    exact ⟨iff_of_false (by simp) fun hall => hall s0 hmem hp,
      fun h => absurd h (by simp), fun _ => ⟨rfl, rfl⟩⟩

/-- Witness for C5: recording an attempt on the owner's session s1 succeeds
even though an attempt with the same index could already exist. -/
theorem recordPuzzleAttempt_spec_witness :
    (recordPuzzleAttempt (some ⟨"u1"⟩) ⟨"s1", 1, none, some true⟩ "a1" 3
      sampleDB).res = .ok "a1" :=
  ((recordPuzzleAttempt_spec ⟨"u1"⟩ ⟨"s1", 1, none, some true⟩ "a1" 3
    sampleDB).2.2 ⟨sampleSession, by decide, rfl, rfl⟩).1

/-- An absent optional string input is falsy. -/
theorem truthy_none : truthy none = false := rfl

/-- The empty string input is falsy. -/
theorem truthy_empty : truthy (some "") = false := rfl

/-- A nonempty string input is truthy. -/
theorem truthy_some_ne {v : String} (h : v ≠ "") : truthy (some v) = true := by
  have hemp : v.isEmpty = false := by
    rw [Bool.eq_false_iff]
    intro hv
    exact h ((String.isEmpty_iff v).mp hv)
  simp [truthy, hemp]

/-- C6: on a successful updatePuzzleTemplate, the target rows receive exactly
the optional fields supplied with truthy (nonempty) values; an absent or
empty value leaves the field unchanged; updatedAt is always refreshed;
id, userId, isSystem, createdAt, the non-target templates, and the other
tables are unchanged. -/
theorem updatePuzzleTemplate_success_updates
    (user : User) (input : UpdateTemplateInput) (now : Nat) (db : DB)
    (t0 : PuzzleTemplate)
    (hfind : db.templates.find? (fun t => t.id == input.id) = some t0)
    (hown : t0.userId = some user.id) (hsys : t0.isSystem = false) :
    (updatePuzzleTemplate (some user) input now db).res = .ok input.id ∧
    (updatePuzzleTemplate (some user) input now db).db.sessions = db.sessions ∧
    (updatePuzzleTemplate (some user) input now db).db.attempts = db.attempts ∧
    (updatePuzzleTemplate (some user) input now db).db.templates =
      db.templates.map (fun t =>
        if t.id = input.id then applyTemplateUpdates input now t else t) ∧
    (∀ t : PuzzleTemplate,
      (applyTemplateUpdates input now t).id = t.id ∧
      (applyTemplateUpdates input now t).userId = t.userId ∧
      (applyTemplateUpdates input now t).isSystem = t.isSystem ∧
      (applyTemplateUpdates input now t).createdAt = t.createdAt ∧
      (applyTemplateUpdates input now t).updatedAt = now ∧
      (∀ v, input.name = some v → v ≠ "" →
        (applyTemplateUpdates input now t).name = v) ∧
      ((input.name = none ∨ input.name = some "") →
        (applyTemplateUpdates input now t).name = t.name) ∧
      (∀ v, input.puzzleType = some v → v ≠ "" →
        (applyTemplateUpdates input now t).puzzleType = some v) ∧
      ((input.puzzleType = none ∨ input.puzzleType = some "") →
        (applyTemplateUpdates input now t).puzzleType = t.puzzleType) ∧
      (∀ v, input.difficulty = some v → v ≠ "" →
        (applyTemplateUpdates input now t).difficulty = some v) ∧
      ((input.difficulty = none ∨ input.difficulty = some "") →
        (applyTemplateUpdates input now t).difficulty = t.difficulty) ∧
      (∀ v, input.description = some v → v ≠ "" →
        (applyTemplateUpdates input now t).description = some v) ∧
      ((input.description = none ∨ input.description = some "") →
        (applyTemplateUpdates input now t).description = t.description) ∧
      (∀ v, input.dataJson = some v → v ≠ "" →
        (applyTemplateUpdates input now t).dataJson = some v) ∧
      ((input.dataJson = none ∨ input.dataJson = some "") →
        (applyTemplateUpdates input now t).dataJson = t.dataJson) ∧
      (∀ v, input.solutionJson = some v → v ≠ "" →
        (applyTemplateUpdates input now t).solutionJson = some v) ∧
      ((input.solutionJson = none ∨ input.solutionJson = some "") →
        (applyTemplateUpdates input now t).solutionJson = t.solutionJson)) := by
  have hc : ¬(t0.userId != some user.id || t0.isSystem) = true := by
    simp [hown, hsys]
  simp only [updatePuzzleTemplate, requireUser, hfind]
  rw [if_neg hc]
  refine ⟨rfl, rfl, rfl, ?_, ?_⟩
  · simp only [beq_iff_eq]
  · intro t
    refine ⟨rfl, rfl, rfl, rfl, rfl, ?_, ?_, ?_, ?_, ?_, ?_, ?_, ?_, ?_, ?_,
      ?_, ?_⟩
    · intro v hv hne
      simp [applyTemplateUpdates, hv, truthy_some_ne hne]
    · rintro (h | h) <;> simp [applyTemplateUpdates, h, truthy_none, truthy_empty]
    · intro v hv hne
      simp [applyTemplateUpdates, hv, truthy_some_ne hne]
    · rintro (h | h) <;> simp [applyTemplateUpdates, h, truthy_none, truthy_empty]
    · intro v hv hne
      simp [applyTemplateUpdates, hv, truthy_some_ne hne]
    · rintro (h | h) <;> simp [applyTemplateUpdates, h, truthy_none, truthy_empty]
    · intro v hv hne
      simp [applyTemplateUpdates, hv, truthy_some_ne hne]
    · rintro (h | h) <;> simp [applyTemplateUpdates, h, truthy_none, truthy_empty]
    · intro v hv hne
      simp [applyTemplateUpdates, hv, truthy_some_ne hne]
    · rintro (h | h) <;> simp [applyTemplateUpdates, h, truthy_none, truthy_empty]
    · intro v hv hne
      simp [applyTemplateUpdates, hv, truthy_some_ne hne]
    · rintro (h | h) <;> simp [applyTemplateUpdates, h, truthy_none, truthy_empty]

/-- Witness for C6: the owner updates only the difficulty of template t1 and
the call succeeds. -/
theorem updatePuzzleTemplate_success_updates_witness :
    (updatePuzzleTemplate (some ⟨"u1"⟩)
      ⟨"t1", none, none, some "hard", none, none, none⟩ 7 sampleDB).res =
      .ok "t1" :=
  (updatePuzzleTemplate_success_updates ⟨"u1"⟩
    ⟨"t1", none, none, some "hard", none, none, none⟩ 7 sampleDB
    sampleTemplate (by decide) rfl rfl).1

/-- C7: for every authenticated caller, createPuzzleTemplate appends exactly
one template row with the caller as owner, isSystem false, both timestamps
now, the input's fields, and the fresh id; it returns the fresh id, leaves
the other tables unchanged, and — when the generated id differs from every
stored template id — the new state holds exactly one row with that id. -/
theorem createPuzzleTemplate_spec
    (user : User) (input : CreateTemplateInput) (fid : String) (now : Nat)
    (db : DB) (hfresh : ∀ t ∈ db.templates, t.id ≠ fid) :
    (createPuzzleTemplate (some user) input fid now db).res = .ok fid ∧
    (createPuzzleTemplate (some user) input fid now db).db.templates =
      db.templates ++
        [{ id := fid
           userId := some user.id
           name := input.name
           puzzleType := input.puzzleType
           difficulty := input.difficulty
           description := input.description
           dataJson := input.dataJson
           solutionJson := input.solutionJson
           isSystem := false
           createdAt := now
           updatedAt := now }] ∧
    (createPuzzleTemplate (some user) input fid now db).db.sessions =
      db.sessions ∧
    (createPuzzleTemplate (some user) input fid now db).db.attempts =
      db.attempts ∧
    (createPuzzleTemplate (some user) input fid now db).db.templates.countP
      (fun t => t.id == fid) = 1 := by
  refine ⟨rfl, rfl, rfl, rfl, ?_⟩
  have h0 : db.templates.countP (fun t => t.id == fid) = 0 :=
    List.countP_eq_zero.mpr fun t ht => by simpa using hfresh t ht
  show (db.templates ++ [_]).countP (fun (t : PuzzleTemplate) => t.id == fid) = 1
  simp [List.countP_append, List.countP_cons, h0]

/-- Witness for C7: creating a template with a fresh id against the sample
state succeeds. -/
theorem createPuzzleTemplate_spec_witness :
    (createPuzzleTemplate (some ⟨"u1"⟩) ⟨"New", none, none, none, none, none⟩
      "t9" 11 sampleDB).res = .ok "t9" :=
  (createPuzzleTemplate_spec ⟨"u1"⟩ ⟨"New", none, none, none, none, none⟩
    "t9" 11 sampleDB (by decide)).1

/-- C8: for every authenticated caller, listPuzzleTemplates returns exactly
the stored templates owned by the caller, extended by the system templates
when includeSystem (default true) holds; the returned total is the length of
the returned list, the state is unchanged, and the includeSystem result set
contains the own-only result set. -/
theorem listPuzzleTemplates_spec (user : User) (inc : Option Bool) (db : DB) :
    (listPuzzleTemplates (some user) inc db).db = db ∧
    (∃ items, (listPuzzleTemplates (some user) inc db).res =
        .ok (items, items.length) ∧
      ∀ t, t ∈ items ↔ t ∈ db.templates ∧
        (t.userId = some user.id ∨ (inc.getD true = true ∧ t.isSystem = true))) ∧
    (∀ t items₁ n₁ items₂ n₂,
      (listPuzzleTemplates (some user) (some false) db).res = .ok (items₁, n₁) →
      (listPuzzleTemplates (some user) (some true) db).res = .ok (items₂, n₂) →
      t ∈ items₁ → t ∈ items₂) := by
  refine ⟨rfl,
    ⟨db.templates.filter (templateVisible user (inc.getD true)), rfl,
      fun t => ?_⟩, ?_⟩
  · simp [List.mem_filter, templateVisible, Bool.or_eq_true, Bool.and_eq_true,
      beq_iff_eq]
  · intro t items₁ n₁ items₂ n₂ h₁ h₂ hmem
    simp only [listPuzzleTemplates, requireUser, Except.ok.injEq,
      Prod.mk.injEq] at h₁ h₂
    obtain ⟨h₁, -⟩ := h₁
    obtain ⟨h₂, -⟩ := h₂
    rw [← h₁] at hmem
    rw [← h₂]
    rw [List.mem_filter] at hmem ⊢
    refine ⟨hmem.1, ?_⟩
    have := hmem.2
    simp only [templateVisible, Option.getD_some, Bool.false_and,
      Bool.or_false] at this
    simp [templateVisible, this]

/-- Witness for C8: for user u1 the own-only listing returns exactly the
owned template, the default listing adds the system template, and the former
is contained in the latter. -/
theorem listPuzzleTemplates_spec_witness :
    (listPuzzleTemplates (some ⟨"u1"⟩) (some false) sampleDB).res =
      .ok ([sampleTemplate], 1) ∧
    (listPuzzleTemplates (some ⟨"u1"⟩) (some true) sampleDB).res =
      .ok ([sampleTemplate, systemTemplate], 2) ∧
    sampleTemplate ∈ [sampleTemplate, systemTemplate] :=
  ⟨rfl, rfl,
    (listPuzzleTemplates_spec ⟨"u1"⟩ (some false) sampleDB).2.2 sampleTemplate
      [sampleTemplate] 1 [sampleTemplate, systemTemplate] 2 rfl rfl
      (by decide)⟩

/-- C9: for every authenticated caller, listPuzzleSessions returns the page
of at most pageSize sessions starting at offset (page - 1) * pageSize of the
AND-filtered stored sessions, always scoped to the caller's ownership with
the truthy puzzleTemplateId and status filters, with total equal to the
count of the returned page (not of the full matching set) and the page
number echoed; the state is unchanged. -/
theorem listPuzzleSessions_spec (user : User) (input : ListSessionsInput)
    (db : DB) (_hpage : 1 ≤ input.page.getD 1) :
    (listPuzzleSessions (some user) input db).db = db ∧
    (∃ items, (listPuzzleSessions (some user) input db).res =
        .ok (items, items.length, input.page.getD 1) ∧
      items = ((db.sessions.filter
          (sessionMatches user input.puzzleTemplateId input.status)).drop
            ((input.page.getD 1 - 1) * input.pageSize.getD 20)).take
          (input.pageSize.getD 20) ∧
      items.length ≤ input.pageSize.getD 20 ∧
      (∀ s ∈ items, s.userId = user.id)) ∧
    (∀ s, sessionMatches user input.puzzleTemplateId input.status s = true ↔
      (s.userId = user.id ∧
       (∀ v, input.puzzleTemplateId = some v → v ≠ "" →
         s.puzzleTemplateId = v) ∧
       (∀ v, input.status = some v → v ≠ "" → s.status = some v))) := by
  refine ⟨rfl, ⟨_, rfl, rfl, List.length_take_le _ _, fun s hs => ?_⟩,
    fun s => ?_⟩
  · have hf : s ∈ db.sessions.filter
        (sessionMatches user input.puzzleTemplateId input.status) :=
      List.drop_subset _ _ (List.take_subset _ _ hs)
    have := (List.mem_filter.mp hf).2
    simp only [sessionMatches, Bool.and_eq_true, beq_iff_eq] at this
    exact this.1.1
  · simp only [sessionMatches, Bool.and_eq_true, beq_iff_eq]
    constructor
    · rintro ⟨⟨h1, h2⟩, h3⟩
      refine ⟨h1, fun v hv hne => ?_, fun v hv hne => ?_⟩
      · rw [hv] at h2
        simp only [truthy_some_ne hne, if_true, Option.getD_some] at h2
        simpa using h2
      · rw [hv] at h3
        simp only [truthy_some_ne hne, if_true, Option.getD_some] at h3
        simpa using h3
    · rintro ⟨h1, h2, h3⟩
      refine ⟨⟨h1, ?_⟩, ?_⟩
      · cases htid : input.puzzleTemplateId with
        | none => simp [truthy_none]
        | some v =>
          by_cases hv : v = ""
          · subst hv
            simp [truthy_empty]
          · simp [truthy_some_ne hv, h2 v htid hv]
      · cases hst : input.status with
        | none => simp [truthy_none]
        | some v =>
          by_cases hv : v = ""
          · subst hv
            simp [truthy_empty]
          · simp [truthy_some_ne hv, h3 v hst hv]

/-- Witness for C9: listing the sessions of user u1 with the in-progress
filter on the sample state succeeds with the owned session on page 1. -/
theorem listPuzzleSessions_spec_witness :
    (1 : Nat) ≤ 1 ∧
    (listPuzzleSessions (some ⟨"u1"⟩)
      ⟨none, some "in-progress", some 1, some 10⟩ sampleDB).db = sampleDB :=
  ⟨Nat.le_refl 1,
    (listPuzzleSessions_spec ⟨"u1"⟩ ⟨none, some "in-progress", some 1, some 10⟩
      sampleDB (Nat.le_refl 1)).1⟩

/-- C10: passing the empty string as the puzzleTemplateId filter or as the
status filter of listPuzzleSessions is the same as omitting that filter, for
every caller (authenticated or not) and every stored state. -/
theorem listPuzzleSessions_empty_filter_skipped
    (ctx : Option User) (tid st : Option String) (page pageSize : Option Nat)
    (db : DB) :
    listPuzzleSessions ctx ⟨some "", st, page, pageSize⟩ db =
      listPuzzleSessions ctx ⟨none, st, page, pageSize⟩ db ∧
    listPuzzleSessions ctx ⟨tid, some "", page, pageSize⟩ db =
      listPuzzleSessions ctx ⟨tid, none, page, pageSize⟩ db := by
  constructor
  · cases ctx with
    | none => rfl
    | some user =>
      have hf : sessionMatches user (some "") st =
          sessionMatches user none st := by
        funext s
        simp [sessionMatches, truthy_empty, truthy_none]
      simp only [listPuzzleSessions, requireUser]
      rw [hf]
  · cases ctx with
    | none => rfl
    | some user =>
      have hf : sessionMatches user tid (some "") =
          sessionMatches user tid none := by
        funext s
        simp [sessionMatches, truthy_empty, truthy_none]
      simp only [listPuzzleSessions, requireUser]
      rw [hf]

end PuzzleZone
